import Mathlib

/-
Verification development for the fido2-service crate of rust-u2f.

Shallow embedding of src/fido2-service/src/authenticator.rs and
src/fido2-service/src/storage.rs. Stateful code is embedded as explicit
state passing over the `Data` record guarded by the Mutex in the source;
cryptographic primitives (SHA-256, ECDSA P-256 key generation and
signing, the system RNG) live in external crates (ring, fido2-api) and
are embedded symbolically: a digest is a free constructor on its input,
a key pair is identified by the Nat drawn from the RNG at generation
time, and a signature records exactly the signing key and the signed
payload, so that a public key validates a signature precisely when the
signature was produced by the corresponding private key over the same
payload.
-/

/-- Byte strings, as lists of byte values. -/
abbrev Bytes := List Nat

/-- Bytes of a string (symbolic encoding: one code point per byte cell;
injective, which is all the embedding relies on). -/
def strBytes (s : String) : Bytes := s.data.map Char.toNat

/-- Symbolic SHA-256: `Sha256.digest` is a free (injective) constructor,
the random-oracle-style model of a collision-free hash. Mirrors
`fido2_api::Sha256::digest`. -/
structure Sha256 where
  digest ::
  input : Bytes
deriving DecidableEq, Repr

/-- Symbolic ECDSA P-256 private key, identified by the RNG draw that
created it. -/
structure PrivateKey where
  keyId : Nat
deriving DecidableEq, Repr

/-- Symbolic public key. -/
structure PublicKey where
  keyId : Nat
deriving DecidableEq, Repr

/-- The public half of a private key. -/
def PrivateKey.publicKey (k : PrivateKey) : PublicKey := ⟨k.keyId⟩

/-- COSE algorithm identifiers that appear in the source
(`COSEAlgorithmIdentifier::ES256` plus one unsupported alternative so
that unsupported-algorithm inputs are expressible). -/
inductive COSEAlgorithmIdentifier where
  | ES256
  | RS256
deriving DecidableEq, Repr

/-- Mirrors `fido2_api::PublicKeyCredentialType` (CTAP2 defines the
single type "public-key"). -/
inductive PublicKeyCredentialType where
  | PublicKey
deriving DecidableEq, Repr

/-- Mirrors `fido2_api::PublicKeyCredentialParameters`. -/
structure PublicKeyCredentialParameters where
  alg : COSEAlgorithmIdentifier
  type_ : PublicKeyCredentialType
deriving DecidableEq, Repr

/-- Mirrors `fido2_api::RelyingPartyIdentifier` (opaque string identity;
`as_bytes` is `strBytes` on the wrapped string). -/
structure RelyingPartyIdentifier where
  id : String
deriving DecidableEq, Repr

/-- Mirrors `fido2_api::UserHandle` (opaque bytes). -/
structure UserHandle where
  handle : Bytes
deriving DecidableEq, Repr

/-- Mirrors `fido2_api::CredentialId` (opaque bytes, generated at
creation time). -/
structure CredentialId where
  id : Bytes
deriving DecidableEq, Repr

/-- Mirrors `fido2_api::Aaguid` (authenticator model identifier; the
uuid is embedded as a Nat). -/
structure Aaguid where
  id : Nat
deriving DecidableEq, Repr

/-- Mirrors `fido2_api::PublicKeyCredentialRpEntity`. -/
structure PublicKeyCredentialRpEntity where
  id : RelyingPartyIdentifier
  name : String
deriving DecidableEq, Repr

/-- Mirrors `fido2_api::PublicKeyCredentialUserEntity`. -/
structure PublicKeyCredentialUserEntity where
  id : UserHandle
  name : String
  display_name : String
deriving DecidableEq, Repr

/-- Mirrors `fido2_api::AttestedCredentialData`. -/
structure AttestedCredentialData where
  aaguid : Aaguid
  credential_id : CredentialId
  credential_public_key : PublicKey
deriving DecidableEq, Repr

/-- Mirrors `fido2_api::AuthenticatorData`. -/
structure AuthenticatorData where
  rp_id_hash : Sha256
  user_present : Bool
  user_verified : Bool
  sign_count : Nat
  attested_credential_data : Option (List AttestedCredentialData)
deriving DecidableEq, Repr

/-- Symbolic signature: records the signing key and the signed payload
(the authenticator data and client-data hash exactly as handed to the
signing call, standing for the byte concatenation the source signs). -/
structure Signature where
  signedWith : PrivateKey
  signedAuthData : AuthenticatorData
  signedClientDataHash : Sha256
deriving DecidableEq, Repr

/-- A public key validates a signature over given authenticator data
and client-data hash exactly when the signature was produced by the
matching private key over that same payload (symbolic model of ECDSA
verification). -/
def Signature.Verifies (sig : Signature) (pk : PublicKey)
    (authData : AuthenticatorData) (cdh : Sha256) : Prop :=
  sig.signedWith.publicKey = pk ∧ sig.signedAuthData = authData ∧
    sig.signedClientDataHash = cdh

instance (sig : Signature) (pk : PublicKey) (authData : AuthenticatorData)
    (cdh : Sha256) : Decidable (Signature.Verifies sig pk authData cdh) := by
  unfold Signature.Verifies; infer_instance

/-- Mirrors `fido2_api::AttestationCertificate`: the certificate is
embedded as the public key it certifies (the source stores the DER
document of `attestation_source.public_key_document()`). -/
structure AttestationCertificate where
  attestation_certificate : PublicKey
  ca_certificate_chain : List PublicKey
deriving DecidableEq, Repr

/-- Mirrors `fido2_api::PackedAttestationStatement`. -/
structure PackedAttestationStatement where
  alg : COSEAlgorithmIdentifier
  sig : Signature
  x5c : Option AttestationCertificate
deriving DecidableEq, Repr

/-- Mirrors `fido2_api::AttestationStatement`. -/
inductive AttestationStatement where
  | Packed (stmt : PackedAttestationStatement)
deriving DecidableEq, Repr

/-- Mirrors `fido2_api::PublicKeyCredentialDescriptor`. -/
structure PublicKeyCredentialDescriptor where
  type_ : PublicKeyCredentialType
  id : CredentialId
deriving DecidableEq, Repr

/-- Mirrors `crate::authenticator::CredentialHandle` as described in
spec section 3: a credential-id-bearing public descriptor used to
re-locate the backing private record. -/
structure CredentialHandle where
  descriptor : PublicKeyCredentialDescriptor
deriving DecidableEq, Repr

/-- Modelled from the spec: `PrivateKeyCredentialSource` lives in
crypto.rs, which is not under src/. Spec section 3 describes it as "the
durable record - algorithm identifier, relying-party id, user handle,
credential id, and private key bytes"; the generation call in
storage.rs receives the full `PublicKeyCredentialParameters`, so the
record keeps that parameters value (whose `alg` field is the algorithm
identifier). -/
structure PrivateKeyCredentialSource where
  params : PublicKeyCredentialParameters
  rp_id : RelyingPartyIdentifier
  user_handle : UserHandle
  id : CredentialId
  private_key : PrivateKey
deriving DecidableEq, Repr

/-- Modelled from the spec: `PrivateKeyCredentialSource::generate`
(crypto.rs, not under src/): "generate a private key for the requested
algorithm, derive its public view, assign a fresh unique credential id"
(spec section 4.4). The RNG is a counter `n`; the fresh private key and
fresh credential id are both derived from the current draw. -/
def PrivateKeyCredentialSource.generate
    (parameters : PublicKeyCredentialParameters)
    (rp_id : RelyingPartyIdentifier) (user_handle : UserHandle)
    (n : Nat) : PrivateKeyCredentialSource :=
  { params := parameters
    rp_id := rp_id
    user_handle := user_handle
    id := ⟨[n]⟩
    private_key := ⟨n⟩ }

/-- Modelled from the spec: `key.handle()` (crypto.rs, not under src/):
the handle wraps the public descriptor naming the credential id. -/
def PrivateKeyCredentialSource.handle
    (key : PrivateKeyCredentialSource) : CredentialHandle :=
  ⟨⟨PublicKeyCredentialType.PublicKey, key.id⟩⟩

/-- The public signing view of a stored record
(`PublicKeyCredentialSource::credential_public_key` in crypto.rs, not
under src/; spec section 3: "a derived, signing-capable view"). -/
def PrivateKeyCredentialSource.credential_public_key
    (key : PrivateKeyCredentialSource) : PublicKey :=
  key.private_key.publicKey

/-- Modelled from the spec: the `CredentialStorage` backend behind
`SoftwareCryptoStore` (the trait is declared in storage.rs lines 15-38;
its implementation is outside src/). Spec section 4.5: records keyed by
credential id, re-putting the same id overwrites, lookup returns the
latest. A list with prepend-on-put and first-match lookup realizes
exactly that contract. -/
abbrev Store := List PrivateKeyCredentialSource

/-- Storage lookup (`store.get(credential_handle)`): first record whose
credential id matches the handle descriptor id. -/
def Store.get (s : Store) (h : CredentialHandle) :
    Option PrivateKeyCredentialSource :=
  s.find? (fun r => r.id == h.descriptor.id)

/-- Storage insert (`store.put_discoverable(key)`): prepend, so that
lookup returns the latest record for an id. -/
def Store.put_discoverable (s : Store) (r : PrivateKeyCredentialSource) :
    Store :=
  r :: s

/-- The attestation source (crypto.rs, not under src/; spec section 2:
"holds the authenticator own long-lived signing key and certificate").
-/
structure AttestationSource where
  key : PrivateKey
deriving DecidableEq, Repr

/-- Modelled from the spec: `AttestationSource::sign` signs the
serialized authenticator data concatenated with the client-data hash
using the attestation key (spec section 4.4). -/
def AttestationSource.sign (src : AttestationSource)
    (authData : AuthenticatorData) (cdh : Sha256) : Signature :=
  ⟨src.key, authData, cdh⟩

/-- Modelled from the spec: `AttestationSource::public_key_document`
exposes the certificate document of the attestation public key. -/
def AttestationSource.public_key_document (src : AttestationSource) :
    PublicKey :=
  src.key.publicKey

/-- Mirrors `storage.rs` `Data<S>`: the state behind the Mutex of
`SoftwareCryptoStore` - AAGUID, RNG (embedded as a fresh-value
counter), storage backend, attestation source. -/
structure Data where
  aaguid : Aaguid
  rng : Nat
  store : Store
  attestation_source : AttestationSource
deriving DecidableEq, Repr

/-- Error kinds of `crate::Error` used by the source (lib.rs is not
under src/; the kinds are those named by src/ and by the spec section 7
taxonomy, including the propagated presence-gate failure). -/
inductive Error where
  | InvalidParameter
  | UnsupportedAlgorithm
  | NoCredentials
  | PresenceCheckFailed
deriving DecidableEq, Repr

/-- Outcome of a Rust call in the embedding: a value, a returned typed
error, or a panic (`todo!` and friends). Panics are distinguished from
returned errors because several claims turn on that difference. -/
inductive CallResult (α : Type) where
  | ok (value : α)
  | error (e : Error)
  | panicked (msg : String)
deriving DecidableEq, Repr

/-- Mirrors `SoftwareCryptoStore::make_credential` (storage.rs lines
73-84): generate a key for the requested parameters, persist it as
discoverable, advance the RNG, return the handle. -/
def SoftwareCryptoStore.make_credential (d : Data)
    (parameters : PublicKeyCredentialParameters)
    (rp_id : RelyingPartyIdentifier) (user_handle : UserHandle) :
    CredentialHandle × Data :=
  let key := PrivateKeyCredentialSource.generate parameters rp_id user_handle d.rng
  let handle := key.handle
  (handle, { d with store := Store.put_discoverable d.store key, rng := d.rng + 1 })

/-- Mirrors `SoftwareCryptoStore::attest` (storage.rs lines 86-130):
look up the record; if found, build authenticator data with sign_count
1 and the attested-credential block, sign with the attestation source
key, and package a packed statement carrying the attestation
certificate; if absent, the source executes `todo!("error")`, which
panics. -/
def SoftwareCryptoStore.attest (d : Data) (rp_id : RelyingPartyIdentifier)
    (credential_handle : CredentialHandle) (client_data_hash : Sha256)
    (user_present : Bool) (user_verified : Bool) :
    CallResult (AuthenticatorData × AttestationStatement) × Data :=
  match Store.get d.store credential_handle with
  | some key =>
    let auth_data : AuthenticatorData :=
      { rp_id_hash := Sha256.digest (strBytes rp_id.id)
        user_present := user_present
        user_verified := user_verified
        sign_count := 1
        attested_credential_data := some [
          { aaguid := d.aaguid
            credential_id := credential_handle.descriptor.id
            credential_public_key := key.credential_public_key }] }
    let signature := d.attestation_source.sign auth_data client_data_hash
    (CallResult.ok (auth_data, AttestationStatement.Packed
      { alg := key.params.alg
        sig := signature
        x5c := some
          { attestation_certificate := d.attestation_source.public_key_document
            ca_certificate_chain := [] } }), d)
  | none => (CallResult.panicked "not yet implemented: error", d)

/-- Mirrors `SoftwareCryptoStore::assert` (storage.rs lines 132-156):
same lookup, authenticator data with sign_count 2 and no
attested-credential block, signed with the private key of the
credential itself; the absent case executes `todo!("error")`. -/
def SoftwareCryptoStore.assert (d : Data) (rp_id : RelyingPartyIdentifier)
    (credential_handle : CredentialHandle) (client_data_hash : Sha256)
    (user_present : Bool) (user_verified : Bool) :
    CallResult (AuthenticatorData × Signature) × Data :=
  match Store.get d.store credential_handle with
  | some key =>
    let auth_data : AuthenticatorData :=
      { rp_id_hash := Sha256.digest (strBytes rp_id.id)
        user_present := user_present
        user_verified := user_verified
        sign_count := 2
        attested_credential_data := none }
    let signature : Signature := ⟨key.private_key, auth_data, client_data_hash⟩
    (CallResult.ok (auth_data, signature), d)
  | none => (CallResult.panicked "not yet implemented: error", d)

/-- Mirrors `fido2_api::MakeCredentialCommand` as destructured by
`Authenticator::make_credential` (fields the source ignores are kept
with placeholder types). -/
structure MakeCredentialCommand where
  client_data_hash : Sha256
  rp : PublicKeyCredentialRpEntity
  user : PublicKeyCredentialUserEntity
  pub_key_cred_params : List PublicKeyCredentialParameters
  exclude_list : Option (List PublicKeyCredentialDescriptor)
  extensions : Option Unit
  options : Option Unit
  pin_uv_auth_param : Option Bytes
  pin_uv_auth_protocol : Option Nat
  enterprise_attestation : Option Nat
deriving DecidableEq, Repr

/-- Mirrors `fido2_api::MakeCredentialResponse`. -/
structure MakeCredentialResponse where
  auth_data : AuthenticatorData
  att_stmt : AttestationStatement
deriving DecidableEq, Repr

/-- Mirrors `fido2_api::GetAssertionCommand`. -/
structure GetAssertionCommand where
  rp_id : RelyingPartyIdentifier
  client_data_hash : Sha256
deriving DecidableEq, Repr

/-- Mirrors `fido2_api::GetAssertionResponse`. -/
structure GetAssertionResponse where
  credential : PublicKeyCredentialDescriptor
  auth_data : AuthenticatorData
  signature : Signature
deriving DecidableEq, Repr

/-- Mirrors `Authenticator::make_credential` (authenticator.rs lines
177-293), with the `SecretStore` dependency realized by
`SoftwareCryptoStore` (spec section 4.4) and the `UserPresence`
dependency embedded as the function `approve` giving the outcome of
`approve_make_credential` on each display name. Step order as in the
source: pinUvAuthParam check, algorithm selection (filter ES256, first
entry), enterprise-attestation check, the (unreachable) second
pinUvAuthParam check of step 11.1, exclude-list check, presence gate
(the source binds the returned boolean as `present` and never reads
it; `up` is set to true unconditionally afterwards), credential
generation, attestation. -/
def Authenticator.make_credential (approve : String → Except Error Bool)
    (d : Data) (cmd : MakeCredentialCommand) :
    CallResult MakeCredentialResponse × Data :=
  if cmd.pin_uv_auth_param.isSome then (CallResult.error Error.InvalidParameter, d)
  else
    match (cmd.pub_key_cred_params.filter
        (fun p => p.alg == COSEAlgorithmIdentifier.ES256)).head? with
    | none => (CallResult.error Error.UnsupportedAlgorithm, d)
    | some pk_parameters =>
      let uv := false
      if cmd.enterprise_attestation.isSome then
        (CallResult.error Error.InvalidParameter, d)
      else if cmd.pin_uv_auth_param.isSome then
        (CallResult.error Error.InvalidParameter, d)
      else if cmd.exclude_list.isSome then
        (CallResult.error Error.InvalidParameter, d)
      else
        match approve cmd.rp.name with
        | Except.error e => (CallResult.error e, d)
        | Except.ok _present =>
          let up := true
          let step := SoftwareCryptoStore.make_credential d pk_parameters
            cmd.rp.id cmd.user.id
          let credential := step.1
          let d1 := step.2
          match SoftwareCryptoStore.attest d1 cmd.rp.id credential
              cmd.client_data_hash up uv with
          | (CallResult.ok (auth_data, att_stmt), d2) =>
            (CallResult.ok { auth_data := auth_data, att_stmt := att_stmt }, d2)
          | (CallResult.error e, d2) => (CallResult.error e, d2)
          | (CallResult.panicked m, d2) => (CallResult.panicked m, d2)

/-- Mirrors `Authenticator::get_assertion` (authenticator.rs lines
295-315): the first statement of the body is
`let credential: PublicKeyCredentialDescriptor = todo!();`, so every
call panics before doing anything else. -/
def Authenticator.get_assertion (d : Data) (cmd : GetAssertionCommand) :
    CallResult GetAssertionResponse × Data :=
  let _ := cmd
  (CallResult.panicked "not yet implemented", d)

/-- Test double for the presence gate that approves every request
(mirrors `FakeUserPresence::always_approve` in the source tests). -/
def approveAlways : String → Except Error Bool := fun _ => Except.ok true

/-- Presence gate returning a successful but negative (denied) outcome:
`approve_make_credential` resolves to `Ok(false)`. -/
def approveDeny : String → Except Error Bool := fun _ => Except.ok false

/-- Concrete initial state: empty store, RNG counter 0, AAGUID 7,
attestation key 1000. -/
def dEx : Data :=
  { aaguid := ⟨7⟩, rng := 0, store := [], attestation_source := ⟨⟨1000⟩⟩ }

/-- The relying-party identifier of the concrete scenario. -/
def rpEx : RelyingPartyIdentifier := ⟨"example.com"⟩

/-- Client-data hash of the concrete scenario (the source tests hash
the bytes of "client data"). -/
def cdhEx : Sha256 := Sha256.digest (strBytes "client data")

/-- The concrete make_credential request of the spec scenario:
relying-party id "example.com", user handle [0x01], algorithm list
[ES256], no optional parameters. -/
def cmdEx : MakeCredentialCommand :=
  { client_data_hash := cdhEx
    rp := { id := rpEx, name := "Example RP" }
    user := { id := ⟨[1]⟩, name := "user@example.com", display_name := "Test User" }
    pub_key_cred_params :=
      [⟨COSEAlgorithmIdentifier.ES256, PublicKeyCredentialType.PublicKey⟩]
    exclude_list := none
    extensions := none
    options := none
    pin_uv_auth_param := none
    pin_uv_auth_protocol := none
    enterprise_attestation := none }

/-- The credential record the concrete scenario persists. -/
def exRecord : PrivateKeyCredentialSource :=
  { params := ⟨COSEAlgorithmIdentifier.ES256, PublicKeyCredentialType.PublicKey⟩
    rp_id := rpEx
    user_handle := ⟨[1]⟩
    id := ⟨[0]⟩
    private_key := ⟨0⟩ }

/-- The attested-credential block of the concrete scenario. -/
def exAttested : AttestedCredentialData :=
  { aaguid := ⟨7⟩, credential_id := ⟨[0]⟩, credential_public_key := ⟨0⟩ }

/-- The authenticator data the concrete scenario returns. -/
def exAuthData : AuthenticatorData :=
  { rp_id_hash := Sha256.digest (strBytes "example.com")
    user_present := true
    user_verified := false
    sign_count := 1
    attested_credential_data := some [exAttested] }

/-- The attestation signature of the concrete scenario (produced by the
attestation-source key 1000). -/
def exSig : Signature := ⟨⟨1000⟩, exAuthData, cdhEx⟩

/-- The full response of the concrete scenario. -/
def exResp : MakeCredentialResponse :=
  { auth_data := exAuthData
    att_stmt := AttestationStatement.Packed
      { alg := COSEAlgorithmIdentifier.ES256
        sig := exSig
        x5c := some ⟨⟨1000⟩, []⟩ } }

/-- The state after the concrete scenario: one persisted credential. -/
def dExAfter : Data :=
  { aaguid := ⟨7⟩, rng := 1, store := [exRecord], attestation_source := ⟨⟨1000⟩⟩ }

/-- Handle of the credential persisted by the concrete scenario. -/
def exHandle : CredentialHandle :=
  ⟨⟨PublicKeyCredentialType.PublicKey, ⟨[0]⟩⟩⟩

/-- A handle whose credential id is unknown to the (empty) store. -/
def unknownHandle : CredentialHandle :=
  ⟨⟨PublicKeyCredentialType.PublicKey, ⟨[9]⟩⟩⟩

/-- Concrete get_assertion request for a relying party with zero stored
credentials (the store of `dEx` is empty). -/
def gaCmdEx : GetAssertionCommand := { rp_id := rpEx, client_data_hash := cdhEx }

/-- Request carrying an enterprise-attestation selector together with
an algorithm list containing no ES256 entry. -/
def cmdEnterpriseNoAlg : MakeCredentialCommand :=
  { cmdEx with pub_key_cred_params := [], enterprise_attestation := some 1 }

/-- Request carrying a PIN/UV auth param together with an algorithm
list containing no ES256 entry. -/
def cmdPinUvNoAlg : MakeCredentialCommand :=
  { cmdEx with pub_key_cred_params := [], pin_uv_auth_param := some [0] }

/-- Request carrying a PIN/UV auth param (all other gates passable). -/
def cmdPinUv : MakeCredentialCommand :=
  { cmdEx with pin_uv_auth_param := some [0] }

/-- Request with an entirely unsupported algorithm list. -/
def cmdBadAlg : MakeCredentialCommand :=
  { cmdEx with pub_key_cred_params :=
      [⟨COSEAlgorithmIdentifier.RS256, PublicKeyCredentialType.PublicKey⟩] }

/-- Request carrying an enterprise-attestation selector. -/
def cmdEnterprise : MakeCredentialCommand :=
  { cmdEx with enterprise_attestation := some 1 }

/-- Request carrying an exclude list. -/
def cmdExclude : MakeCredentialCommand :=
  { cmdEx with exclude_list := some [] }

/-- Authenticator data built by a successful attest call (the record
found for the handle determines the embedded public key). -/
def attestAuthData (d : Data) (rp : RelyingPartyIdentifier)
    (h : CredentialHandle) (rec : PrivateKeyCredentialSource)
    (up uv : Bool) : AuthenticatorData :=
  { rp_id_hash := Sha256.digest (strBytes rp.id)
    user_present := up
    user_verified := uv
    sign_count := 1
    attested_credential_data := some [
      { aaguid := d.aaguid
        credential_id := h.descriptor.id
        credential_public_key := rec.credential_public_key }] }

/-- Authenticator data built by a successful assert call. -/
def assertAuthData (rp : RelyingPartyIdentifier) (up uv : Bool) :
    AuthenticatorData :=
  { rp_id_hash := Sha256.digest (strBytes rp.id)
    user_present := up
    user_verified := uv
    sign_count := 2
    attested_credential_data := none }

/-- One operation of a credential lifetime: an attestation or an
assertion call, with its call arguments. -/
inductive CredOp where
  | doAttest (rp : RelyingPartyIdentifier) (cdh : Sha256) (up uv : Bool)
  | doAssert (rp : RelyingPartyIdentifier) (cdh : Sha256) (up uv : Bool)
deriving DecidableEq, Repr

/-- Whether an operation is an assertion. -/
def CredOp.isAssertOp : CredOp → Bool
  | CredOp.doAssert _ _ _ _ => true
  | CredOp.doAttest _ _ _ _ => false

/-- The sign_count value a successful run of the operation emits in the
produced authenticator data (attestation 1, assertion 2, as hardcoded
by the source). -/
def CredOp.emitted : CredOp → Nat
  | CredOp.doAttest _ _ _ _ => 1
  | CredOp.doAssert _ _ _ _ => 2

/-- Run a sequence of attest/assert operations against one credential
handle, threading the state and collecting the sign_count of each
successful result. -/
def runCounts (d : Data) (h : CredentialHandle) : List CredOp → List Nat
  | [] => []
  | CredOp.doAttest rp cdh up uv :: rest =>
    match SoftwareCryptoStore.attest d rp h cdh up uv with
    | (CallResult.ok (ad, _), d') => ad.sign_count :: runCounts d' h rest
    | (_, d') => runCounts d' h rest
  | CredOp.doAssert rp cdh up uv :: rest =>
    match SoftwareCryptoStore.assert d rp h cdh up uv with
    | (CallResult.ok (ad, _), d') => ad.sign_count :: runCounts d' h rest
    | (_, d') => runCounts d' h rest

/-- A sequence in which no attestation follows an assertion: once the
first assertion happens, every later operation is an assertion. -/
def attestsFirst (ops : List CredOp) : Bool :=
  (ops.dropWhile (fun o => !o.isAssertOp)).all CredOp.isAssertOp

/-- Sequence used to witness monotone emission: one attestation, then
one assertion. -/
def opsW : List CredOp :=
  [CredOp.doAttest rpEx cdhEx true false, CredOp.doAssert rpEx cdhEx false false]

/-- Sequence refuting monotone emission for arbitrary orders: an
assertion, then an attestation. -/
def opsBad : List CredOp :=
  [CredOp.doAssert rpEx cdhEx false false, CredOp.doAttest rpEx cdhEx true false]

/-- Attest on a handle the store knows returns sign_count 1, the
attested-credential block, and a signature by the attestation-source
key, leaving the state unchanged. -/
theorem attest_found (d : Data) (rp : RelyingPartyIdentifier)
    (h : CredentialHandle) (cdh : Sha256) (up uv : Bool)
    (rec : PrivateKeyCredentialSource)
    (hget : Store.get d.store h = some rec) :
    SoftwareCryptoStore.attest d rp h cdh up uv =
      (CallResult.ok (attestAuthData d rp h rec up uv,
        AttestationStatement.Packed
          { alg := rec.params.alg
            sig := ⟨d.attestation_source.key, attestAuthData d rp h rec up uv, cdh⟩
            x5c := some ⟨d.attestation_source.key.publicKey, []⟩ }), d) := by
  unfold SoftwareCryptoStore.attest
  rw [hget]
  rfl

/-- Assert on a handle the store knows returns sign_count 2, no
attested-credential block, and a signature by the private key of the
credential, leaving the state unchanged. -/
theorem assert_found (d : Data) (rp : RelyingPartyIdentifier)
    (h : CredentialHandle) (cdh : Sha256) (up uv : Bool)
    (rec : PrivateKeyCredentialSource)
    (hget : Store.get d.store h = some rec) :
    SoftwareCryptoStore.assert d rp h cdh up uv =
      (CallResult.ok (assertAuthData rp up uv,
        (⟨rec.private_key, assertAuthData rp up uv, cdh⟩ : Signature)), d) := by
  unfold SoftwareCryptoStore.assert
  rw [hget]
  rfl

/-- Running a sequence of operations against a known handle emits the
hardcoded sign_count of each operation, in order. -/
theorem runCounts_eq_map (d : Data) (h : CredentialHandle)
    (rec : PrivateKeyCredentialSource)
    (hget : Store.get d.store h = some rec) :
    ∀ ops : List CredOp, runCounts d h ops = ops.map CredOp.emitted := by
  intro ops
  induction ops with
  | nil => rfl
  | cons op rest ih =>
    cases op with
    | doAttest rp cdh up uv =>
      simp only [runCounts, attest_found d rp h cdh up uv rec hget]
      simp [CredOp.emitted, attestAuthData, ih]
    | doAssert rp cdh up uv =>
      simp only [runCounts, assert_found d rp h cdh up uv rec hget]
      simp [CredOp.emitted, assertAuthData, ih]

/-- Emitted values of an all-assertion sequence form a non-decreasing
chain (every value is 2). -/
theorem all_assert_chain (ops : List CredOp)
    (hall : ops.all CredOp.isAssertOp = true) :
    List.Chain' (· ≤ ·) (ops.map CredOp.emitted) := by
  induction ops with
  | nil => simp
  | cons op rest ih =>
    simp only [List.all_cons, Bool.and_eq_true] at hall
    obtain ⟨hop, hrest⟩ := hall
    rw [List.map_cons, List.chain'_cons']
    refine ⟨?_, ih hrest⟩
    intro b hb
    obtain ⟨o, ho, rfl⟩ := List.mem_map.mp (List.mem_of_mem_head? hb)
    have hoa : CredOp.isAssertOp o = true :=
      List.all_eq_true.mp hrest o ho
    cases op with
    | doAttest _ _ _ _ => simp [CredOp.isAssertOp] at hop
    | doAssert _ _ _ _ =>
      cases o with
      | doAttest _ _ _ _ => simp [CredOp.isAssertOp] at hoa
      | doAssert _ _ _ _ => simp [CredOp.emitted]

/-- Emitted values of a sequence in which no attestation follows an
assertion form a non-decreasing chain. -/
theorem chain_emitted (ops : List CredOp)
    (horder : attestsFirst ops = true) :
    List.Chain' (· ≤ ·) (ops.map CredOp.emitted) := by
  induction ops with
  | nil => simp
  | cons op rest ih =>
    cases hop : op.isAssertOp with
    | false =>
      have hrest : attestsFirst rest = true := by
        unfold attestsFirst at horder ⊢
        rwa [List.dropWhile_cons, if_pos (by simp [hop])] at horder
      rw [List.map_cons, List.chain'_cons']
      refine ⟨?_, ih hrest⟩
      intro b hb
      obtain ⟨o, ho, rfl⟩ := List.mem_map.mp (List.mem_of_mem_head? hb)
      have h1 : CredOp.emitted op = 1 := by
        cases op with
        | doAttest _ _ _ _ => rfl
        | doAssert _ _ _ _ => simp [CredOp.isAssertOp] at hop
      rw [h1]
      cases o with
      | doAttest _ _ _ _ => simp [CredOp.emitted]
      | doAssert _ _ _ _ => simp [CredOp.emitted]
    | true =>
      have hall : (op :: rest).all CredOp.isAssertOp = true := by
        unfold attestsFirst at horder
        rwa [List.dropWhile_cons, if_neg (by simp [hop])] at horder
      exact all_assert_chain _ hall

/-- Step 1-2 gate: a present pinUvAuthParam makes make_credential
return InvalidParameter with the state untouched. -/
theorem mc_pinuv (approve : String → Except Error Bool) (d : Data)
    (cmd : MakeCredentialCommand)
    (hpin : cmd.pin_uv_auth_param.isSome = true) :
    Authenticator.make_credential approve d cmd =
      (CallResult.error Error.InvalidParameter, d) := by
  unfold Authenticator.make_credential
  simp [hpin]

/-- Step 3 gate: with no pinUvAuthParam and no ES256 entry in the
algorithm list, make_credential returns UnsupportedAlgorithm with the
state untouched. -/
theorem mc_noalg (approve : String → Except Error Bool) (d : Data)
    (cmd : MakeCredentialCommand)
    (hpin : cmd.pin_uv_auth_param = none)
    (hf : cmd.pub_key_cred_params.filter
      (fun p => p.alg == COSEAlgorithmIdentifier.ES256) = []) :
    Authenticator.make_credential approve d cmd =
      (CallResult.error Error.UnsupportedAlgorithm, d) := by
  unfold Authenticator.make_credential
  simp [hpin, hf]

/-- Step 9 gate: with the earlier gates passed, a present
enterpriseAttestation makes make_credential return InvalidParameter
with the state untouched. -/
theorem mc_enterprise (approve : String → Except Error Bool) (d : Data)
    (cmd : MakeCredentialCommand)
    (hpin : cmd.pin_uv_auth_param = none)
    (pk : PublicKeyCredentialParameters)
    (rest : List PublicKeyCredentialParameters)
    (hf : cmd.pub_key_cred_params.filter
      (fun p => p.alg == COSEAlgorithmIdentifier.ES256) = pk :: rest)
    (hea : cmd.enterprise_attestation.isSome = true) :
    Authenticator.make_credential approve d cmd =
      (CallResult.error Error.InvalidParameter, d) := by
  unfold Authenticator.make_credential
  simp [hpin, hf, hea]

/-- Step 12 gate: with the earlier gates passed, a present excludeList
makes make_credential return InvalidParameter with the state untouched.
-/
theorem mc_exclude (approve : String → Except Error Bool) (d : Data)
    (cmd : MakeCredentialCommand)
    (hpin : cmd.pin_uv_auth_param = none)
    (pk : PublicKeyCredentialParameters)
    (rest : List PublicKeyCredentialParameters)
    (hf : cmd.pub_key_cred_params.filter
      (fun p => p.alg == COSEAlgorithmIdentifier.ES256) = pk :: rest)
    (hea : cmd.enterprise_attestation = none)
    (hex : cmd.exclude_list.isSome = true) :
    Authenticator.make_credential approve d cmd =
      (CallResult.error Error.InvalidParameter, d) := by
  unfold Authenticator.make_credential
  simp [hpin, hf, hea, hex]

/-- Success path of make_credential: all gates passed and the presence
call resolved to Ok (either boolean), so the record generated from the
first ES256-matching entry is persisted on top of the old store. -/
theorem mc_success_store (approve : String → Except Error Bool) (d : Data)
    (cmd : MakeCredentialCommand)
    (hpin : cmd.pin_uv_auth_param = none)
    (pk : PublicKeyCredentialParameters)
    (rest : List PublicKeyCredentialParameters)
    (hf : cmd.pub_key_cred_params.filter
      (fun p => p.alg == COSEAlgorithmIdentifier.ES256) = pk :: rest)
    (hea : cmd.enterprise_attestation = none)
    (hex : cmd.exclude_list = none)
    (b : Bool) (happ : approve cmd.rp.name = Except.ok b) :
    (Authenticator.make_credential approve d cmd).2.store =
      PrivateKeyCredentialSource.generate pk cmd.rp.id cmd.user.id d.rng
        :: d.store := by
  unfold Authenticator.make_credential
  simp [hpin, hf, hea, hex, happ, SoftwareCryptoStore.make_credential,
    SoftwareCryptoStore.attest, Store.get, Store.put_discoverable,
    PrivateKeyCredentialSource.generate, PrivateKeyCredentialSource.handle]

/-- C1: the claim states that a denied (Ok false) outcome of the
presence gate aborts make_credential with no credential persisted and
no attestation produced. The source binds the gate outcome as `present`
and never reads it, setting up to true unconditionally: with the gate
denying the concrete example.com request, the operation still returns
an attestation response whose user_present flag is true and persists
one new credential. This theorem evaluates the embedded code at that
failing input. -/
theorem c1_presence_denied_still_creates_credential :
    Authenticator.make_credential approveDeny dEx cmdEx =
      (CallResult.ok exResp, dExAfter) ∧
    exResp.auth_data.user_present = true ∧
    dExAfter.store.length = dEx.store.length + 1 := by decide

/-- C2 counterexample: in the concrete scenario (relying-party id
"example.com", user handle [0x01], algorithm list [ES256], presence
approved) the public key embedded in the attested-credential block does
NOT validate the returned attestation signature, because
SoftwareCryptoStore attest signs with the attestation-source key, not
the credential key; so the claim as stated is false at this input. -/
theorem c2_embedded_key_does_not_validate :
    Authenticator.make_credential approveAlways dEx cmdEx =
      (CallResult.ok exResp, dExAfter) ∧
    exResp.auth_data.attested_credential_data = some [exAttested] ∧
    exResp.att_stmt = AttestationStatement.Packed
      ⟨COSEAlgorithmIdentifier.ES256, exSig, some ⟨⟨1000⟩, []⟩⟩ ∧
    ¬ Signature.Verifies exSig exAttested.credential_public_key
        exResp.auth_data cmdEx.client_data_hash := by decide

/-- C2 as amended: in the concrete scenario the response carries
rp_id_hash equal to SHA-256 of "example.com", user_present true,
user_verified false, a non-empty attested-credential block, and an
attestation signature over the authenticator data and client-data hash
that is validated by the Attestation Source public key carried in the
attestation statement certificate (basic attestation), not by the
embedded credential key. -/
theorem c2_concrete_scenario_basic_attestation :
    Authenticator.make_credential approveAlways dEx cmdEx =
      (CallResult.ok exResp, dExAfter) ∧
    exResp.auth_data.rp_id_hash = Sha256.digest (strBytes "example.com") ∧
    exResp.auth_data.user_present = true ∧
    exResp.auth_data.user_verified = false ∧
    exResp.auth_data.attested_credential_data = some [exAttested] ∧
    exResp.att_stmt = AttestationStatement.Packed
      ⟨COSEAlgorithmIdentifier.ES256, exSig,
        some ⟨dEx.attestation_source.public_key_document, []⟩⟩ ∧
    Signature.Verifies exSig dEx.attestation_source.public_key_document
      exResp.auth_data cmdEx.client_data_hash := by decide

/-- C3: the claim states that attest on a descriptor unknown to the
store fails with a distinct not-found error rather than succeeding,
panicking, or returning another error kind. The source instead reaches
todo with message "error", which panics: this theorem evaluates the
embedded attest at a handle absent from the (empty) store and shows the
outcome is a panic, not a returned error. -/
theorem c3_attest_unknown_descriptor_panics :
    Store.get dEx.store unknownHandle = none ∧
    SoftwareCryptoStore.attest dEx rpEx unknownHandle cdhEx true false =
      (CallResult.panicked "not yet implemented: error", dEx) := by decide

/-- C4: the claim states that get_assertion for a relying-party id with
zero stored credentials returns the distinct NoCredentials error. The
source body begins with an unconditional todo, so every call (here: the
example.com request against the empty store) panics and in particular
never returns NoCredentials. -/
theorem c4_get_assertion_always_panics :
    dEx.store = [] ∧
    Authenticator.get_assertion dEx gaCmdEx =
      (CallResult.panicked "not yet implemented", dEx) ∧
    (Authenticator.get_assertion dEx gaCmdEx).1 ≠
      CallResult.error Error.NoCredentials := by decide

/-- C5 counterexample: a request carrying an enterprise-attestation
selector together with an algorithm list containing no ES256 entry
yields UnsupportedAlgorithm, not InvalidParameter, because the
algorithm gate sits before the enterprise gate; the claim as stated
(InvalidParameter for every request carrying such a selector) is false
at this input. -/
theorem c5_enterprise_not_invalid_parameter :
    cmdEnterpriseNoAlg.enterprise_attestation.isSome = true ∧
    Authenticator.make_credential approveAlways dEx cmdEnterpriseNoAlg =
      (CallResult.error Error.UnsupportedAlgorithm, dEx) ∧
    (Authenticator.make_credential approveAlways dEx cmdEnterpriseNoAlg).1 ≠
      CallResult.error Error.InvalidParameter := by decide

/-- C5 as amended: a make_credential request carrying a PIN/UV auth
param, or carrying an exclude list or an enterprise-attestation
selector while its algorithm list contains an ES256 entry, results in
InvalidParameter with the state (hence the credential store) unchanged.
-/
theorem c5_invalid_parameter_rejections
    (approve : String → Except Error Bool) (d : Data)
    (cmd : MakeCredentialCommand)
    (h : cmd.pin_uv_auth_param.isSome = true ∨
      (cmd.pub_key_cred_params.filter
        (fun p => p.alg == COSEAlgorithmIdentifier.ES256) ≠ [] ∧
       (cmd.enterprise_attestation.isSome = true ∨
        cmd.exclude_list.isSome = true))) :
    Authenticator.make_credential approve d cmd =
      (CallResult.error Error.InvalidParameter, d) := by
  rcases h with hpin | ⟨halg, hrest⟩
  · exact mc_pinuv approve d cmd hpin
  · cases hpu : cmd.pin_uv_auth_param with
    | some v => exact mc_pinuv approve d cmd (by simp [hpu])
    | none =>
      cases hf : cmd.pub_key_cred_params.filter
          (fun p => p.alg == COSEAlgorithmIdentifier.ES256) with
      | nil => exact absurd hf halg
      | cons pk rest =>
        rcases hrest with hea | hex
        · exact mc_enterprise approve d cmd hpu pk rest hf hea
        · cases hEA : cmd.enterprise_attestation with
          | some v => exact mc_enterprise approve d cmd hpu pk rest hf (by simp [hEA])
          | none => exact mc_exclude approve d cmd hpu pk rest hf hEA hex

/-- C5 witness: the amended rejection theorem applied to the concrete
exclude-list request. -/
theorem c5_invalid_parameter_rejections_witness :
    Authenticator.make_credential approveAlways dEx cmdExclude =
      (CallResult.error Error.InvalidParameter, dEx) :=
  c5_invalid_parameter_rejections approveAlways dEx cmdExclude
    (Or.inr ⟨by decide, Or.inr (by decide)⟩)

/-- C6 counterexample: a request carrying a PIN/UV auth param together
with an algorithm list containing no ES256 entry yields
InvalidParameter, not UnsupportedAlgorithm, because the PIN/UV gate
sits before the algorithm gate; the claim as stated
(UnsupportedAlgorithm for every request whose list has no ES256 entry)
is false at this input. -/
theorem c6_pinuv_precedes_algorithm_check :
    cmdPinUvNoAlg.pub_key_cred_params.filter
      (fun p => p.alg == COSEAlgorithmIdentifier.ES256) = [] ∧
    Authenticator.make_credential approveAlways dEx cmdPinUvNoAlg =
      (CallResult.error Error.InvalidParameter, dEx) ∧
    (Authenticator.make_credential approveAlways dEx cmdPinUvNoAlg).1 ≠
      CallResult.error Error.UnsupportedAlgorithm := by decide

/-- C6 as amended: for a request with no PIN/UV auth param, an
algorithm list with no ES256 entry yields UnsupportedAlgorithm with the
state unchanged; and when an ES256 entry exists and the remaining gates
pass, the persisted record is generated from precisely the first
ES256-matching entry of the list. -/
theorem c6_unsupported_algorithm_and_selection
    (approve : String → Except Error Bool) (d : Data)
    (cmd : MakeCredentialCommand)
    (hpin : cmd.pin_uv_auth_param = none) :
    (cmd.pub_key_cred_params.filter
        (fun p => p.alg == COSEAlgorithmIdentifier.ES256) = [] →
      Authenticator.make_credential approve d cmd =
        (CallResult.error Error.UnsupportedAlgorithm, d)) ∧
    (∀ pk rest b,
      cmd.pub_key_cred_params.filter
        (fun p => p.alg == COSEAlgorithmIdentifier.ES256) = pk :: rest →
      cmd.enterprise_attestation = none → cmd.exclude_list = none →
      approve cmd.rp.name = Except.ok b →
      (Authenticator.make_credential approve d cmd).2.store =
        PrivateKeyCredentialSource.generate pk cmd.rp.id cmd.user.id d.rng
          :: d.store) :=
  ⟨fun hf => mc_noalg approve d cmd hpin hf,
   fun pk rest b hf hea hex happ =>
     mc_success_store approve d cmd hpin pk rest hf hea hex b happ⟩

/-- C6 witness: the amended theorem applied to the concrete
unsupported-list request and to the concrete ES256 request. -/
theorem c6_unsupported_algorithm_and_selection_witness :
    Authenticator.make_credential approveAlways dEx cmdBadAlg =
      (CallResult.error Error.UnsupportedAlgorithm, dEx) ∧
    (Authenticator.make_credential approveAlways dEx cmdEx).2.store =
      PrivateKeyCredentialSource.generate
        ⟨COSEAlgorithmIdentifier.ES256, PublicKeyCredentialType.PublicKey⟩
        cmdEx.rp.id cmdEx.user.id dEx.rng :: dEx.store :=
  ⟨(c6_unsupported_algorithm_and_selection approveAlways dEx cmdBadAlg rfl).1
      (by decide),
   (c6_unsupported_algorithm_and_selection approveAlways dEx cmdEx rfl).2
      ⟨COSEAlgorithmIdentifier.ES256, PublicKeyCredentialType.PublicKey⟩ []
      true (by decide) rfl rfl rfl⟩

/-- C7: the rejection gates fire in the mandated order - pinUvAuthParam
(InvalidParameter) before algorithm selection (UnsupportedAlgorithm)
before enterpriseAttestation (InvalidParameter) before excludeList
(InvalidParameter) - and the first failing gate aborts with the state
(hence the store) unchanged. -/
theorem c7_gate_order (approve : String → Except Error Bool) (d : Data)
    (cmd : MakeCredentialCommand) :
    (cmd.pin_uv_auth_param.isSome = true →
      Authenticator.make_credential approve d cmd =
        (CallResult.error Error.InvalidParameter, d)) ∧
    (cmd.pin_uv_auth_param = none →
      cmd.pub_key_cred_params.filter
        (fun p => p.alg == COSEAlgorithmIdentifier.ES256) = [] →
      Authenticator.make_credential approve d cmd =
        (CallResult.error Error.UnsupportedAlgorithm, d)) ∧
    (∀ pk rest, cmd.pin_uv_auth_param = none →
      cmd.pub_key_cred_params.filter
        (fun p => p.alg == COSEAlgorithmIdentifier.ES256) = pk :: rest →
      cmd.enterprise_attestation.isSome = true →
      Authenticator.make_credential approve d cmd =
        (CallResult.error Error.InvalidParameter, d)) ∧
    (∀ pk rest, cmd.pin_uv_auth_param = none →
      cmd.pub_key_cred_params.filter
        (fun p => p.alg == COSEAlgorithmIdentifier.ES256) = pk :: rest →
      cmd.enterprise_attestation = none →
      cmd.exclude_list.isSome = true →
      Authenticator.make_credential approve d cmd =
        (CallResult.error Error.InvalidParameter, d)) :=
  ⟨fun hpin => mc_pinuv approve d cmd hpin,
   fun hpin hf => mc_noalg approve d cmd hpin hf,
   fun pk rest hpin hf hea => mc_enterprise approve d cmd hpin pk rest hf hea,
   fun pk rest hpin hf hea hex =>
     mc_exclude approve d cmd hpin pk rest hf hea hex⟩

/-- C7 witness: the gate-order theorem applied to four concrete
requests, one per gate. -/
theorem c7_gate_order_witness :
    Authenticator.make_credential approveAlways dEx cmdPinUv =
      (CallResult.error Error.InvalidParameter, dEx) ∧
    Authenticator.make_credential approveAlways dEx cmdBadAlg =
      (CallResult.error Error.UnsupportedAlgorithm, dEx) ∧
    Authenticator.make_credential approveAlways dEx cmdEnterprise =
      (CallResult.error Error.InvalidParameter, dEx) ∧
    Authenticator.make_credential approveAlways dEx cmdExclude =
      (CallResult.error Error.InvalidParameter, dEx) :=
  ⟨(c7_gate_order approveAlways dEx cmdPinUv).1 (by decide),
   (c7_gate_order approveAlways dEx cmdBadAlg).2.1 rfl (by decide),
   (c7_gate_order approveAlways dEx cmdEnterprise).2.2.1
     ⟨COSEAlgorithmIdentifier.ES256, PublicKeyCredentialType.PublicKey⟩ []
     rfl (by decide) (by decide),
   (c7_gate_order approveAlways dEx cmdExclude).2.2.2
     ⟨COSEAlgorithmIdentifier.ES256, PublicKeyCredentialType.PublicKey⟩ []
     rfl (by decide) rfl (by decide)⟩

/-- C8: for every stored credential, attest returns authenticator data
carrying the attested-credential block (AAGUID, credential id, public
key) and a signature by the attestation-source key, while assert
returns authenticator data with no attested-credential block and a
signature by the private key of the credential itself. -/
theorem c8_attest_assert_structural_difference (d : Data)
    (rp : RelyingPartyIdentifier) (h : CredentialHandle) (cdh : Sha256)
    (up uv : Bool) (rec : PrivateKeyCredentialSource)
    (hget : Store.get d.store h = some rec) :
    SoftwareCryptoStore.attest d rp h cdh up uv =
      (CallResult.ok (attestAuthData d rp h rec up uv,
        AttestationStatement.Packed
          { alg := rec.params.alg
            sig := ⟨d.attestation_source.key, attestAuthData d rp h rec up uv, cdh⟩
            x5c := some ⟨d.attestation_source.key.publicKey, []⟩ }), d) ∧
    (attestAuthData d rp h rec up uv).attested_credential_data =
      some [⟨d.aaguid, h.descriptor.id, rec.credential_public_key⟩] ∧
    SoftwareCryptoStore.assert d rp h cdh up uv =
      (CallResult.ok (assertAuthData rp up uv,
        (⟨rec.private_key, assertAuthData rp up uv, cdh⟩ : Signature)), d) ∧
    (assertAuthData rp up uv).attested_credential_data = none :=
  ⟨attest_found d rp h cdh up uv rec hget, rfl,
   assert_found d rp h cdh up uv rec hget, rfl⟩

/-- C8 witness: the structural-difference theorem applied to the
concrete one-credential store. -/
theorem c8_attest_assert_structural_difference_witness :
    SoftwareCryptoStore.attest dExAfter rpEx exHandle cdhEx true false =
      (CallResult.ok (attestAuthData dExAfter rpEx exHandle exRecord true false,
        AttestationStatement.Packed
          { alg := exRecord.params.alg
            sig := ⟨dExAfter.attestation_source.key,
              attestAuthData dExAfter rpEx exHandle exRecord true false, cdhEx⟩
            x5c := some ⟨dExAfter.attestation_source.key.publicKey, []⟩ }),
        dExAfter) ∧
    (attestAuthData dExAfter rpEx exHandle exRecord true false).attested_credential_data =
      some [⟨dExAfter.aaguid, exHandle.descriptor.id, exRecord.credential_public_key⟩] ∧
    SoftwareCryptoStore.assert dExAfter rpEx exHandle cdhEx true false =
      (CallResult.ok (assertAuthData rpEx true false,
        (⟨exRecord.private_key, assertAuthData rpEx true false, cdhEx⟩ : Signature)),
        dExAfter) ∧
    (assertAuthData rpEx true false).attested_credential_data = none :=
  c8_attest_assert_structural_difference dExAfter rpEx exHandle cdhEx true false
    exRecord (by decide)

/-- C9 counterexample: running an assertion and then an attestation on
the same stored credential emits sign_count values 2 then 1, which is
not a non-decreasing sequence; so the claim as stated (monotone
non-decreasing across any sequence of attest and assert operations) is
false at this input. -/
theorem c9_assert_then_attest_decreases :
    runCounts dExAfter exHandle opsBad = [2, 1] ∧
    ¬ List.Chain' (· ≤ ·) (runCounts dExAfter exHandle opsBad) := by
  have h : runCounts dExAfter exHandle opsBad = [2, 1] := by decide
  refine ⟨h, ?_⟩
  rw [h]
  exact fun hch => absurd (List.chain'_cons.mp hch).1 (by omega)

/-- C9 as amended: every attestation emits the fixed sign_count 1 and
every assertion the fixed sign_count 2, so across any sequence of
operations on a stored credential in which no attestation follows an
assertion (in particular the normal lifecycle of attestation followed
by assertions) the emitted values are monotonically non-decreasing. -/
theorem c9_monotone_when_attests_first (d : Data) (h : CredentialHandle)
    (rec : PrivateKeyCredentialSource) (ops : List CredOp)
    (hget : Store.get d.store h = some rec)
    (horder : attestsFirst ops = true) :
    runCounts d h ops = ops.map CredOp.emitted ∧
    List.Chain' (· ≤ ·) (runCounts d h ops) := by
  have hmap := runCounts_eq_map d h rec hget ops
  refine ⟨hmap, ?_⟩
  rw [hmap]
  exact chain_emitted ops horder

/-- C9 witness: the amended theorem applied to the concrete
attestation-then-assertion sequence on the one-credential store. -/
theorem c9_monotone_when_attests_first_witness :
    runCounts dExAfter exHandle opsW = opsW.map CredOp.emitted ∧
    List.Chain' (· ≤ ·) (runCounts dExAfter exHandle opsW) :=
  c9_monotone_when_attests_first dExAfter exHandle exRecord opsW
    (by decide) (by decide)

/-- C10: attest and assert are read-only with respect to the engine
state: for every handle and every input the resulting state, and in
particular the stored credential set, is exactly the input state - no
record created, modified or deleted, and no counter persisted. -/
theorem c10_attest_assert_readonly (d : Data) (rp : RelyingPartyIdentifier)
    (h : CredentialHandle) (cdh : Sha256) (up uv : Bool) :
    (SoftwareCryptoStore.attest d rp h cdh up uv).2 = d ∧
    (SoftwareCryptoStore.assert d rp h cdh up uv).2 = d ∧
    (SoftwareCryptoStore.attest d rp h cdh up uv).2.store = d.store ∧
    (SoftwareCryptoStore.assert d rp h cdh up uv).2.store = d.store := by
  unfold SoftwareCryptoStore.attest SoftwareCryptoStore.assert
  cases hg : Store.get d.store h <;> simp
